import Mathlib

/-!
Shallow embedding of the ping-pong example of `rust-libp2p-tokio-socks5`
(`src/examples/ping.rs`) together with the parts of its behaviour that the
spec describes but whose code lives in the crate root or in external
libp2p crates (those definitions carry a doc comment starting
`Modelled from the spec:`).
-/

namespace PingPong

/-- A span of time, in milliseconds (mirrors `std::time::Duration` at the
granularity the program uses). -/
structure Duration where
  millis : Nat
deriving DecidableEq, Repr

/-- Mirrors `Duration::from_secs`. -/
def Duration.from_secs (n : Nat) : Duration := { millis := n * 1000 }

/-- One component of a multiaddr, as the program distinguishes them: an
onion-service component (host identifier plus virtual port), a DNS name, a
TCP port, or anything else. -/
inductive Proto where
  | onion3 (host : String) (port : Nat)
  | dnsName (name : String)
  | tcp (port : Nat)
  | other (tag : String)
deriving DecidableEq, Repr

/-- A `Multiaddr`: an ordered sequence of addressing components, immutable
once parsed. -/
structure Multiaddr where
  protos : List Proto
deriving DecidableEq, Repr

/-- The `AddressPortMap` (`HashMap<Multiaddr, u16>` in the source), modelled
as an association list whose insert replaces any earlier entry for the key,
as `HashMap::insert` does. -/
abbrev PortMap := List (Multiaddr × Nat)

/-- Mirrors `HashMap::new`. -/
def PortMap.new : PortMap := []

/-- Mirrors `HashMap::insert` (replacing any existing entry for the key). -/
def PortMap.insert (m : PortMap) (k : Multiaddr) (v : Nat) : PortMap :=
  (k, v) :: List.filter (fun e => decide (e.1 ≠ k)) m

/-- Mirrors `HashMap::get`. -/
def PortMap.find : PortMap → Multiaddr → Option Nat
  | [], _ => none
  | e :: rest, k => if e.1 = k then some e.2 else PortMap.find rest k

/-- `const LOCAL_PORT: u16 = 7777` of `ping.rs`. -/
def LOCAL_PORT : Nat := 7777

/-- `const ONION: &str` of `ping.rs`: the hardcoded onion service address. -/
def ONION : String :=
  "/onion3/7gr3dngwhk74thi4vv6bm3v3bicaxe4apvcemoxo3hadpvsyfifjqnid:7"

/-- `onion_port_map` of `ping.rs`: a fresh map holding exactly the listening
onion address mapped to `LOCAL_PORT`. -/
def onion_port_map (onion : Multiaddr) : PortMap :=
  PortMap.insert PortMap.new onion LOCAL_PORT

/-- An ed25519 public key, key material abstracted. -/
structure PublicKey where
  val : Nat
deriving DecidableEq, Repr

/-- An ed25519 identity keypair, key material abstracted by the generation
seed. -/
structure Keypair where
  secret : Nat
  pubVal : Nat
deriving DecidableEq, Repr

/-- Mirrors `Keypair::generate_ed25519`; the randomness source is made
explicit as a seed. -/
def generate_ed25519 (seed : Nat) : Keypair :=
  { secret := seed, pubVal := seed + 1 }

/-- Mirrors `Keypair::public`. -/
def Keypair.public (k : Keypair) : PublicKey := { val := k.pubVal }

/-- A libp2p peer identifier. -/
structure PeerId where
  hash : Nat
deriving DecidableEq, Repr

/-- Mirrors `PeerId::from(public_key)`; the multihash is abstracted as an
injective tag of the public key. -/
def PeerId.fromPublic (p : PublicKey) : PeerId := { hash := p.val }

/-- The ping behaviour configuration (`PingConfig` of the libp2p ping crate):
probe timeout, probe interval, maximum consecutive failures, keep-alive. -/
structure PingConfig where
  timeout : Duration
  interval : Duration
  maxFailures : Nat
  keepAlive : Bool
deriving DecidableEq, Repr

/-- Modelled from the spec: the default probe timeout of the external ping
behaviour crate. The spec fixes no default values (only that the listener
keeps the default interval), so the defaults are opaque constants here. -/
def defaultPingTimeout : Duration := { millis := 20000 }

/-- Modelled from the spec: the default probe interval of the external ping
behaviour crate (distinct from the dialer's explicit 1-second interval). -/
def defaultPingInterval : Duration := { millis := 15000 }

/-- Mirrors `PingConfig::new()`: the defaults, with keep-alive off. -/
def PingConfig.new : PingConfig :=
  { timeout := defaultPingTimeout
    interval := defaultPingInterval
    maxFailures := 1
    keepAlive := false }

/-- Mirrors `PingConfig::with_keep_alive`. -/
def PingConfig.with_keep_alive (c : PingConfig) (b : Bool) : PingConfig :=
  { c with keepAlive := b }

/-- Mirrors `PingConfig::with_interval`. -/
def PingConfig.with_interval (c : PingConfig) (d : Duration) : PingConfig :=
  { c with interval := d }

/-- The ping configuration `run_dialer` builds (ping.rs lines 94-96):
keep-alive on, a fixed 1-second probe interval. -/
def dialerPingConfig : PingConfig :=
  (PingConfig.new.with_keep_alive true).with_interval (Duration.from_secs 1)

/-- The ping configuration `run_listener` builds (ping.rs line 118):
keep-alive on only, interval left at its default. -/
def listenerPingConfig : PingConfig :=
  PingConfig.new.with_keep_alive true

/-- The two multiplexing schemes the program advertises,
`SelectUpgrade::new(YamuxConfig::default(), MplexConfig::new())`. -/
inductive Muxer where
  | yamux
  | mplex
deriving DecidableEq, Repr

/-- Failure of multiplexer negotiation. -/
inductive MuxError where
  | NoCommonMultiplexerError
deriving DecidableEq, Repr

/-- The preference-ordered capability list the program advertises:
yamux first, then mplex (ping.rs lines 182-185). -/
def advertisedMuxers : List Muxer := [Muxer.yamux, Muxer.mplex]

/-- Modelled from the spec: the capability-negotiation sub-protocol run by the
external libp2p upgrade machinery behind `SelectUpgrade` — walk the
initiator's preference-ordered list and select the first entry the responder
also advertises; disjoint lists fail with `NoCommonMultiplexerError`. -/
def negotiate {α : Type} [DecidableEq α] : List α → List α → Except MuxError α
  | [], _ => Except.error MuxError.NoCommonMultiplexerError
  | x :: rest, responder =>
      if x ∈ responder then Except.ok x else negotiate rest responder

/-- Modelled from the spec: the liveness engine opens its dedicated stream
only on a connection whose multiplexer negotiation succeeded. -/
def livenessStreamOpened {α : Type} (result : Except MuxError α) : Bool :=
  match result with
  | Except.ok _ => true
  | Except.error _ => false

/-- A raw duplex byte stream, as the proxied transport hands it to the
upgrade pipeline. -/
structure RawStream where
  ident : Nat
deriving DecidableEq, Repr

/-- The stream after name resolution. -/
structure ResolvedStream where
  ident : Nat
deriving DecidableEq, Repr

/-- The stream after the authenticated noise XX handshake, carrying the
verified remote peer. -/
structure AuthStream where
  ident : Nat
  remotePeer : PeerId
deriving DecidableEq, Repr

/-- A `Connection`: the result of a successful upgrade pipeline run — the
remote peer paired with the negotiated multiplexer. -/
structure Connection where
  remotePeer : PeerId
  muxer : Muxer
deriving DecidableEq, Repr

/-- Failure of one stage of the upgrade pipeline. -/
inductive UpgradeError where
  | ResolveError
  | HandshakeError
  | NoCommonMultiplexer
deriving DecidableEq, Repr

/-- The three upgrade stages of `build_transport`. -/
inductive Stage where
  | resolution
  | authentication
  | multiplexing
deriving DecidableEq, Repr

/-- The order in which `build_transport` layers the upgrades (ping.rs lines
177-185): DNS resolution, then `.authenticate(noise)`, then
`.multiplex(SelectUpgrade::new(..))`. -/
def upgradeOrder : List Stage :=
  [Stage.resolution, Stage.authentication, Stage.multiplexing]

/-- The upgrade pipeline `build_transport` composes, with the internals of
each stage (implemented by external libp2p crates) abstracted as stage
functions. Returns the attempt's outcome together with the list of stages
that completed, in the order they completed. -/
def runUpgrade (resolve : RawStream → Except UpgradeError ResolvedStream)
    (auth : ResolvedStream → Except UpgradeError AuthStream)
    (mux : AuthStream → Except UpgradeError Connection)
    (s : RawStream) : Except UpgradeError Connection × List Stage :=
  match resolve s with
  | Except.error e => (Except.error e, [])
  | Except.ok r =>
    match auth r with
    | Except.error e => (Except.error e, [Stage.resolution])
    | Except.ok a =>
      match mux a with
      | Except.error e => (Except.error e, [Stage.resolution, Stage.authentication])
      | Except.ok c => (Except.ok c, upgradeOrder)

/-- Modelled from the spec: the liveness engine probes only established
`Connection`s; a failed upgrade attempt yields no probes at all. -/
def livenessProbes (result : Except UpgradeError Connection)
    (probesOn : Connection → Nat) : Nat :=
  match result with
  | Except.ok c => probesOn c
  | Except.error _ => 0

/-- The noise static keys made authentic by the identity keypair
(`noise::Keypair::<X25519Spec>::new().into_authentic(&id_keys)`). -/
structure NoiseAuthKeys where
  dhSecret : Nat
  signer : Keypair
deriving DecidableEq, Repr

/-- The configuration `build_transport` assembles: the authenticated noise
keys, the onion map handed to the SOCKS5 transport, TCP no-delay, and the
upgrade stages it layers. -/
structure TransportConfig where
  noise : NoiseAuthKeys
  onionMap : PortMap
  nodelay : Bool
  upgradeStages : List Stage
deriving DecidableEq, Repr

/-- Mirrors `build_transport` (ping.rs lines 169-190); the fresh X25519
static key is made explicit as a seed. -/
def build_transport (id_keys : Keypair) (map : PortMap) (dhSeed : Nat) :
    TransportConfig :=
  { noise := { dhSecret := dhSeed, signer := id_keys }
    onionMap := map
    nodelay := true
    upgradeStages := upgradeOrder }

/-- The swarm `build_swarm` assembles: transport, ping behaviour
configuration, and the local peer id handed to `SwarmBuilder::new`. -/
structure Swarm where
  transport : TransportConfig
  behaviour : PingConfig
  localPeer : PeerId
deriving DecidableEq, Repr

/-- Mirrors `build_swarm` (ping.rs lines 136-148): generate one ed25519
keypair, derive the local peer id from its public key, and build the
transport from the same keypair. -/
def build_swarm (seed dhSeed : Nat) (config : PingConfig) (map : PortMap) :
    Swarm :=
  let id_keys := generate_ed25519 seed
  let peer_id := PeerId.fromPublic id_keys.public
  { transport := build_transport id_keys map dhSeed
    behaviour := config
    localPeer := peer_id }

/-- An error of the proxied dial. -/
inductive DialError where
  | ProxyConnectError (status : Nat)
  | IoError
deriving DecidableEq, Repr

/-- Modelled from the spec: the SOCKS5 CONNECT exchange performed by the
proxied stream transport (`Socks5TokioTcpConfig`; the crate root is not among
the provided sources). The proxy replies with a status byte: 0 is success and
yields the raw tunnel stream; any nonzero status is a fatal dial failure
carrying the proxy's status. The second component counts CONNECT exchanges
performed by the attempt: exactly one — no automatic retry. -/
def socks5Dial (status : Nat) : Except DialError RawStream × Nat :=
  (if status = 0 then Except.ok { ident := 0 }
   else Except.error (DialError.ProxyConnectError status), 1)

/-- An error of a whole dial attempt: the proxy dial or a later upgrade
stage. -/
inductive AttemptError where
  | dial (e : DialError)
  | upgrade (e : UpgradeError)
deriving DecidableEq, Repr

/-- A whole dial attempt: the SOCKS5 CONNECT, then — only on proxy success —
the upgrade pipeline on the tunnel stream. Second component: CONNECT
exchanges performed. -/
def dialAttempt (status : Nat)
    (resolve : RawStream → Except UpgradeError ResolvedStream)
    (auth : ResolvedStream → Except UpgradeError AuthStream)
    (mux : AuthStream → Except UpgradeError Connection) :
    Except AttemptError Connection × Nat :=
  match socks5Dial status with
  | (Except.error e, n) => (Except.error (AttemptError.dial e), n)
  | (Except.ok s, n) =>
      match (runUpgrade resolve auth mux s).1 with
      | Except.error e => (Except.error (AttemptError.upgrade e), n)
      | Except.ok c => (Except.ok c, n)

/-- The per-connection liveness state the spec describes: consecutive-failure
count and whether the connection has been declared dead. -/
structure LivenessState where
  failures : Nat
  dead : Bool
deriving DecidableEq, Repr

/-- The state of a freshly established connection. -/
def LivenessState.initial : LivenessState := { failures := 0, dead := false }

/-- Outcome of one probe round: the echoed reply arrived within the timeout,
or it did not. -/
inductive ProbeOutcome where
  | pong
  | unanswered
deriving DecidableEq, Repr

/-- Events the liveness engine surfaces to the supervisor. -/
inductive LivenessEvent where
  | pongReceived
  | livenessTimeout
  | connectionClosed
deriving DecidableEq, Repr

/-- Modelled from the spec: one probe round of the liveness state machine
(the ping behaviour is implemented by an external crate). A dead connection
probes no more. A pong resets the failure count. An unanswered probe emits a
non-fatal `livenessTimeout` and increments the failure count; when the count
reaches `maxFailures` the connection is declared dead and a single
`connectionClosed` is emitted. -/
def livenessStep (cfg : PingConfig) (s : LivenessState) (o : ProbeOutcome) :
    LivenessState × List LivenessEvent :=
  if s.dead then (s, [])
  else
    match o with
    | ProbeOutcome.pong =>
        ({ failures := 0, dead := false }, [LivenessEvent.pongReceived])
    | ProbeOutcome.unanswered =>
        if cfg.maxFailures ≤ s.failures + 1 then
          ({ failures := s.failures + 1, dead := true },
           [LivenessEvent.livenessTimeout, LivenessEvent.connectionClosed])
        else
          ({ failures := s.failures + 1, dead := false },
           [LivenessEvent.livenessTimeout])

/-- Run the liveness state machine over a sequence of probe outcomes,
collecting the emitted events in order. -/
def livenessRun (cfg : PingConfig) :
    LivenessState → List ProbeOutcome → LivenessState × List LivenessEvent
  | s, [] => (s, [])
  | s, o :: os =>
      let step := livenessStep cfg s o
      let rest := livenessRun cfg step.1 os
      (rest.1, step.2 ++ rest.2)

/-- The configuration named by the spec's temporal scenario: interval 1s,
timeout 5s, three consecutive failures allowed. -/
def claimLivenessConfig : PingConfig :=
  { timeout := Duration.from_secs 5
    interval := Duration.from_secs 1
    maxFailures := 3
    keepAlive := true }

/-- The fixed probe payload size, in bytes. -/
def PING_SIZE : Nat := 32

/-- A probe payload: an opaque sequence of bytes. -/
structure Payload where
  bytes : List (Fin 256)
deriving DecidableEq, Repr

/-- A wellformed probe payload is exactly `PING_SIZE` bytes. -/
def Payload.wellformed (p : Payload) : Prop := p.bytes.length = PING_SIZE

/-- Modelled from the spec: the responder side of the liveness protocol —
any received probe payload is echoed back verbatim, with no additional
header or processing. -/
def pongResponse (probe : Payload) : Payload := probe

/-- Modelled from the spec: a probe round counts as a success exactly when
the received reply is byte-identical to the sent probe. -/
def classifySuccess (sent received : Payload) : Bool := decide (sent = received)

/-- A proxy-routable target endpoint: host and port for the CONNECT
request. -/
inductive Target where
  | hostPort (host : String) (port : Nat)
deriving DecidableEq, Repr

/-- Failure of address translation. -/
inductive TranslateError where
  | AddressFormatError
deriving DecidableEq, Repr

/-- Modelled from the spec: dial-side address translation by the proxied
transport (the crate root is not among the provided sources) — a
`LogicalAddress` consisting of a single onion component becomes the
proxy-routable onion host with its port; unrecognized schemes fail with
`AddressFormatError`. -/
def translateTarget (a : Multiaddr) : Except TranslateError Target :=
  match a.protos with
  | [Proto.onion3 host port] =>
      Except.ok (Target.hostPort (host ++ ".onion") port)
  | _ => Except.error TranslateError.AddressFormatError

/-- Modelled from the spec: listen-side translation consults the registered
`AddressPortMap` for the local port to bind; a missing entry is treated as
`AddressFormatError` at setup. -/
def listenPort (m : PortMap) (a : Multiaddr) : Except TranslateError Nat :=
  match PortMap.find m a with
  | some p => Except.ok p
  | none => Except.error TranslateError.AddressFormatError

/-- The command-line options of `ping.rs` (`Opt`). -/
structure Opt where
  dialer : Bool
  listener : Bool
  onion : Option String
deriving DecidableEq, Repr

/-- How the address-resolution step of `main` ends: a panic, or an address
to proceed with. -/
inductive MainOutcome where
  | panicked (msg : String)
  | proceeded (addr : Multiaddr)
deriving DecidableEq, Repr

/-- The message of the `expect` in `main` (ping.rs line 64). -/
def PARSE_FAIL_MSG : String := "failed to parse multiaddr"

/-- The address-resolution step of `main` (ping.rs lines 61-64): take the
`--onion` option or else the hardcoded `ONION` constant, parse it as a
multiaddr, and panic via `expect` when parsing fails. Multiaddr parsing is
implemented by an external crate and abstracted as a function. -/
def mainParseAddr (parseMultiaddr : String → Option Multiaddr) (opt : Opt) :
    MainOutcome :=
  let addr := opt.onion.getD ONION
  match parseMultiaddr addr with
  | some m => MainOutcome.proceeded m
  | none => MainOutcome.panicked PARSE_FAIL_MSG

/-- The operations of `run_listener` that touch the `AddressPortMap` or the
listener, in program order. -/
inductive ListenerOp where
  | mapInsert (key : Multiaddr) (port : Nat)
  | listenStart
  | pollEvents
deriving DecidableEq, Repr

/-- Whether an operation writes the map. -/
def ListenerOp.isMapWrite : ListenerOp → Bool
  | ListenerOp.mapInsert _ _ => true
  | _ => false

/-- What a run of `run_listener` sets up: the swarm, the map as it stands
when the listener starts, the map at the end of the run, and the operation
trace. -/
structure ListenerRun where
  swarm : Swarm
  mapAtListenStart : PortMap
  finalMap : PortMap
  ops : List ListenerOp
deriving Repr

/-- Mirrors `run_listener` (ping.rs lines 114-133): build the map with
`onion_port_map`, build the swarm over it, start listening, then only poll
events. The map is moved into the transport and nothing in the remaining
straight-line code writes it, so the final map is the map at listen start. -/
def run_listener (seed dhSeed : Nat) (onion : Multiaddr) : ListenerRun :=
  let map := onion_port_map onion
  let swarm := build_swarm seed dhSeed listenerPingConfig map
  { swarm := swarm
    mapAtListenStart := swarm.transport.onionMap
    finalMap := swarm.transport.onionMap
    ops := [ListenerOp.mapInsert onion LOCAL_PORT, ListenerOp.listenStart,
            ListenerOp.pollEvents] }

/-- What a run of `run_dialer` sets up. -/
structure DialerRun where
  swarm : Swarm
  dialTarget : Multiaddr
deriving Repr

/-- Mirrors `run_dialer` (ping.rs lines 92-111): an empty map, the dialer
ping configuration, and a dial of the given address. -/
def run_dialer (seed dhSeed : Nat) (addr : Multiaddr) : DialerRun :=
  let map : PortMap := PortMap.new
  let swarm := build_swarm seed dhSeed dialerPingConfig map
  { swarm := swarm, dialTarget := addr }

/-- The onion host identifier inside the `ONION` constant. -/
def SAMPLE_ONION_HOST : String :=
  "7gr3dngwhk74thi4vv6bm3v3bicaxe4apvcemoxo3hadpvsyfifjqnid"

/-- A sample onion address, the host identifier of the `ONION` constant. -/
def sampleOnion : Multiaddr :=
  { protos := [Proto.onion3 SAMPLE_ONION_HOST 7] }

/-- C4: every probe payload echoed by the responder comes back byte-for-byte
identical (the echo is the identity, so no header is added and length is
preserved), and a probe round is classified as success exactly when the
received reply is byte-identical to the sent probe; wellformedness (the fixed
32-byte size) is preserved by the echo. -/
theorem probe_roundtrip_law :
    (∀ p : Payload, pongResponse p = p) ∧
    (∀ p : Payload, classifySuccess p (pongResponse p) = true) ∧
    (∀ p q : Payload, classifySuccess p q = true ↔ q = p) ∧
    (∀ p : Payload, (pongResponse p).bytes.length = p.bytes.length) ∧
    (∀ p : Payload, p.wellformed → (pongResponse p).wellformed) := by
  refine ⟨fun p => rfl, fun p => ?_, fun p q => ?_, fun p => rfl, fun p h => h⟩
  · simp [classifySuccess, pongResponse]
  · simp [classifySuccess, eq_comm]

/-- C7: the dialer role configures the liveness engine with a fixed 1-second
probe interval and keep-alive enabled; the listener role enables keep-alive
only, leaving the interval (and everything else) at its default; the two
role configurations differ exactly in the interval, and each role's swarm is
built with exactly its configuration. -/
theorem role_config_asymmetry (seed dhSeed : Nat) (addr onion : Multiaddr) :
    dialerPingConfig.interval = Duration.from_secs 1 ∧
    dialerPingConfig.keepAlive = true ∧
    listenerPingConfig.keepAlive = true ∧
    listenerPingConfig.interval = PingConfig.new.interval ∧
    listenerPingConfig = { dialerPingConfig with interval := PingConfig.new.interval } ∧
    dialerPingConfig.timeout = PingConfig.new.timeout ∧
    dialerPingConfig.maxFailures = PingConfig.new.maxFailures ∧
    (run_dialer seed dhSeed addr).swarm.behaviour = dialerPingConfig ∧
    (run_listener seed dhSeed onion).swarm.behaviour = listenerPingConfig := by
  refine ⟨by decide, by decide, by decide, by decide, by decide, by decide,
    by decide, rfl, rfl⟩

/-- C10: the local peer id `build_swarm` hands to the swarm builder is
derived from the public key of exactly the keypair that signs the noise
static keys of the transport — the advertised identity and the identity
proved in the authenticated handshake agree, and both come from the one
freshly generated ed25519 keypair. -/
theorem swarm_identity_agreement (seed dhSeed : Nat) (config : PingConfig)
    (map : PortMap) :
    (build_swarm seed dhSeed config map).localPeer =
      PeerId.fromPublic
        ((build_swarm seed dhSeed config map).transport.noise.signer.public) ∧
    (build_swarm seed dhSeed config map).transport.noise.signer =
      generate_ed25519 seed := ⟨rfl, rfl⟩

/-- C8: the address translator is deterministic — two translations of the
same logical address, with the same registered map, produce the same
proxy-routable target endpoint (and the same listen-side port). -/
theorem translator_deterministic (m₁ m₂ : PortMap) (a₁ a₂ : Multiaddr)
    (hm : m₁ = m₂) (ha : a₁ = a₂) :
    translateTarget a₁ = translateTarget a₂ ∧
    listenPort m₁ a₁ = listenPort m₂ a₂ := by
  subst hm; subst ha; exact ⟨rfl, rfl⟩

/-- Witness for C8 at a concrete onion address and its registered map. -/
theorem translator_deterministic_witness :
    translateTarget sampleOnion = translateTarget sampleOnion ∧
    listenPort (onion_port_map sampleOnion) sampleOnion =
      listenPort (onion_port_map sampleOnion) sampleOnion :=
  translator_deterministic (onion_port_map sampleOnion)
    (onion_port_map sampleOnion) sampleOnion sampleOnion rfl rfl

/-- C9: when the onion address string (the option when given, otherwise the
hardcoded default) does not parse as a multiaddr, `main` panics with the
`expect` message instead of proceeding (no error value is returned to the
caller). -/
theorem parse_failure_panics (parseMultiaddr : String → Option Multiaddr)
    (opt : Opt) (h : parseMultiaddr (opt.onion.getD ONION) = none) :
    mainParseAddr parseMultiaddr opt = MainOutcome.panicked PARSE_FAIL_MSG ∧
    ∀ m : Multiaddr,
      mainParseAddr parseMultiaddr opt ≠ MainOutcome.proceeded m := by
  constructor
  · simp [mainParseAddr, h]
  · intro m
    simp [mainParseAddr, h]

/-- Witness for C9: a parser rejecting every string, no option given. -/
theorem parse_failure_panics_witness :
    mainParseAddr (fun _ => none)
        { dialer := true, listener := false, onion := none } =
      MainOutcome.panicked PARSE_FAIL_MSG ∧
    ∀ m : Multiaddr,
      mainParseAddr (fun _ => none)
          { dialer := true, listener := false, onion := none } ≠
        MainOutcome.proceeded m :=
  parse_failure_panics (fun _ => none)
    { dialer := true, listener := false, onion := none } rfl

/-- C5: a dial attempt in which the proxy replies with a non-success status
byte fails with `ProxyConnectError` carrying the proxy's status; no
`Connection` is created, and the attempt performs exactly one CONNECT
exchange — the failure is fatal for the attempt and not auto-retried. -/
theorem proxy_failure_no_connection (status : Nat)
    (resolve : RawStream → Except UpgradeError ResolvedStream)
    (auth : ResolvedStream → Except UpgradeError AuthStream)
    (mux : AuthStream → Except UpgradeError Connection)
    (h : status ≠ 0) :
    (dialAttempt status resolve auth mux).1 =
      Except.error (AttemptError.dial (DialError.ProxyConnectError status)) ∧
    (∀ c : Connection,
      (dialAttempt status resolve auth mux).1 ≠ Except.ok c) ∧
    (dialAttempt status resolve auth mux).2 = 1 := by
  have hs : socks5Dial status =
      (Except.error (DialError.ProxyConnectError status), 1) := by
    simp [socks5Dial, h]
  refine ⟨?_, ?_, ?_⟩ <;> simp [dialAttempt, hs]

/-- Witness for C5: proxy status byte 5 (connection refused), with upgrade
stages that would all succeed. -/
theorem proxy_failure_no_connection_witness :
    (dialAttempt 5 (fun s => Except.ok { ident := s.ident })
        (fun r => Except.ok { ident := r.ident, remotePeer := { hash := 9 } })
        (fun a => Except.ok { remotePeer := a.remotePeer,
                              muxer := Muxer.yamux })).1 =
      Except.error (AttemptError.dial (DialError.ProxyConnectError 5)) ∧
    (∀ c : Connection,
      (dialAttempt 5 (fun s => Except.ok { ident := s.ident })
          (fun r => Except.ok { ident := r.ident, remotePeer := { hash := 9 } })
          (fun a => Except.ok { remotePeer := a.remotePeer,
                                muxer := Muxer.yamux })).1 ≠ Except.ok c) ∧
    (dialAttempt 5 (fun s => Except.ok { ident := s.ident })
        (fun r => Except.ok { ident := r.ident, remotePeer := { hash := 9 } })
        (fun a => Except.ok { remotePeer := a.remotePeer,
                              muxer := Muxer.yamux })).2 = 1 :=
  proxy_failure_no_connection 5 (fun s => Except.ok { ident := s.ident })
    (fun r => Except.ok { ident := r.ident, remotePeer := { hash := 9 } })
    (fun a => Except.ok { remotePeer := a.remotePeer, muxer := Muxer.yamux })
    (by decide)

/-- C6: `run_listener` fully populates the `AddressPortMap` (a single insert
of the listening address at `LOCAL_PORT`) before the listener starts, and
never mutates it afterwards: the map at listen start equals `onion_port_map`
of the address, the final map equals the map at listen start, the trace holds
exactly one map write, and every map write precedes the listen start, with
none after it. -/
theorem port_map_fixed_before_listen (seed dhSeed : Nat) (onion : Multiaddr) :
    (run_listener seed dhSeed onion).mapAtListenStart = onion_port_map onion ∧
    onion_port_map onion = [(onion, LOCAL_PORT)] ∧
    (run_listener seed dhSeed onion).finalMap =
      (run_listener seed dhSeed onion).mapAtListenStart ∧
    (((run_listener seed dhSeed onion).ops.filter
        ListenerOp.isMapWrite).length = 1) ∧
    (∃ pre post,
      (run_listener seed dhSeed onion).ops =
        pre ++ ListenerOp.listenStart :: post ∧
      pre = [ListenerOp.mapInsert onion LOCAL_PORT] ∧
      post.filter ListenerOp.isMapWrite = []) := by
  refine ⟨rfl, rfl, rfl, ?_, ?_⟩
  · simp [run_listener, ListenerOp.isMapWrite]
  · exact ⟨[ListenerOp.mapInsert onion LOCAL_PORT], [ListenerOp.pollEvents],
      rfl, rfl, rfl⟩

/-- C3: under interval 1s, timeout 5s and three allowed consecutive failures,
three consecutive unanswered probes drive the connection to the dead state
and emit exactly one `connectionClosed` event (alongside one non-fatal
`livenessTimeout` per probe, never one close per timeout — even a longer
unanswered run closes only once), and every individual timeout below the
threshold is non-fatal: it only increments the failure count. -/
theorem three_timeouts_close_once :
    (let run := livenessRun claimLivenessConfig LivenessState.initial
        [ProbeOutcome.unanswered, ProbeOutcome.unanswered,
         ProbeOutcome.unanswered]
     run.1.dead = true ∧
     (run.2.filter (fun e => decide (e = LivenessEvent.connectionClosed))).length
       = 1 ∧
     (run.2.filter (fun e => decide (e = LivenessEvent.livenessTimeout))).length
       = 3) ∧
    (let run5 := livenessRun claimLivenessConfig LivenessState.initial
        [ProbeOutcome.unanswered, ProbeOutcome.unanswered,
         ProbeOutcome.unanswered, ProbeOutcome.unanswered,
         ProbeOutcome.unanswered]
     (run5.2.filter
        (fun e => decide (e = LivenessEvent.connectionClosed))).length = 1) ∧
    (∀ s : LivenessState, s.dead = false →
      s.failures + 1 < claimLivenessConfig.maxFailures →
      livenessStep claimLivenessConfig s ProbeOutcome.unanswered =
        ({ failures := s.failures + 1, dead := false },
         [LivenessEvent.livenessTimeout])) := by
  refine ⟨by decide, by decide, ?_⟩
  intro s hdead hbelow
  have hnot : ¬ claimLivenessConfig.maxFailures ≤ s.failures + 1 :=
    Nat.not_le.mpr hbelow
  simp [livenessStep, hdead, hnot]

/-- Disjoint capability lists make negotiation fail. -/
theorem negotiate_disjoint_aux {α : Type} [DecidableEq α] (r : List α) :
    ∀ i : List α, (∀ x ∈ i, x ∉ r) →
      negotiate i r = Except.error MuxError.NoCommonMultiplexerError := by
  intro i
  induction i with
  | nil => intro _; rfl
  | cons x t ih =>
      intro h
      have hx : x ∉ r := h x (List.mem_cons_self x t)
      rw [negotiate, if_neg hx]
      exact ih fun z hz => h z (List.mem_cons_of_mem x hz)

/-- A common entry makes negotiation pick the first entry of the initiator's
list that the responder also advertises. -/
theorem negotiate_first_aux {α : Type} [DecidableEq α] (r : List α) :
    ∀ i : List α, ∀ x ∈ i, x ∈ r →
      ∃ y i₁ i₂, negotiate i r = Except.ok y ∧ i = i₁ ++ y :: i₂ ∧ y ∈ r ∧
        ∀ z ∈ i₁, z ∉ r := by
  intro i
  induction i with
  | nil => intro x hx; cases hx
  | cons a t ih =>
      intro x hx hxr
      by_cases ha : a ∈ r
      · refine ⟨a, [], t, ?_, rfl, ha, ?_⟩
        · rw [negotiate, if_pos ha]
        · intro z hz; cases hz
      · have hxt : x ∈ t := by
          rcases List.mem_cons.mp hx with h1 | h1
          · subst h1; exact absurd hxr ha
          · exact h1
        obtain ⟨y, i₁, i₂, hneg, heq, hyr, hpre⟩ := ih x hxt hxr
        refine ⟨y, a :: i₁, i₂, ?_, ?_, hyr, ?_⟩
        · rw [negotiate, if_neg ha]; exact hneg
        · simp [heq]
        · intro z hz
          rcases List.mem_cons.mp hz with h1 | h1
          · subst h1; exact ha
          · exact hpre z h1

/-- C2: when the initiator's and responder's advertised multiplexer
capability lists share an entry, negotiation selects the first mutually
supported scheme in the initiator's preference order (in particular, the
program's list `[yamux, mplex]` against `[mplex, yamux]` yields yamux);
when the lists are disjoint it fails with `NoCommonMultiplexerError` and no
liveness stream is opened. -/
theorem muxer_negotiation_policy {α : Type} [DecidableEq α] (i r : List α) :
    ((∃ x, x ∈ i ∧ x ∈ r) →
      ∃ y i₁ i₂, negotiate i r = Except.ok y ∧ i = i₁ ++ y :: i₂ ∧ y ∈ r ∧
        ∀ z ∈ i₁, z ∉ r) ∧
    ((∀ x ∈ i, x ∉ r) →
      negotiate i r = Except.error MuxError.NoCommonMultiplexerError ∧
      livenessStreamOpened (negotiate i r) = false) ∧
    negotiate advertisedMuxers (List.reverse advertisedMuxers) =
      Except.ok Muxer.yamux := by
  refine ⟨?_, ?_, rfl⟩
  · rintro ⟨x, hx, hxr⟩
    exact negotiate_first_aux r i x hx hxr
  · intro h
    have hd := negotiate_disjoint_aux r i h
    exact ⟨hd, by rw [hd]; rfl⟩

/-- C1: the upgrade pipeline of `build_transport` applies name resolution,
then the authenticated handshake, then multiplexer negotiation, in that
strict order; a `Connection` is produced exactly when all three stages
completed, and a failure at any stage leaves no connection, no liveness
probes, and only a proper prefix of the stage order completed —
`build_transport` itself layers exactly this stage order. -/
theorem upgrade_stages_all_or_nothing
    (resolve : RawStream → Except UpgradeError ResolvedStream)
    (auth : ResolvedStream → Except UpgradeError AuthStream)
    (mux : AuthStream → Except UpgradeError Connection)
    (s : RawStream) (probesOn : Connection → Nat) :
    (∀ c : Connection, (runUpgrade resolve auth mux s).1 = Except.ok c →
      (runUpgrade resolve auth mux s).2 = upgradeOrder ∧
      ∃ r a, resolve s = Except.ok r ∧ auth r = Except.ok a ∧
        mux a = Except.ok c) ∧
    (∀ e : UpgradeError, (runUpgrade resolve auth mux s).1 = Except.error e →
      livenessProbes (runUpgrade resolve auth mux s).1 probesOn = 0 ∧
      (∀ c : Connection, (runUpgrade resolve auth mux s).1 ≠ Except.ok c) ∧
      ∃ n, n < upgradeOrder.length ∧
        (runUpgrade resolve auth mux s).2 = List.take n upgradeOrder) ∧
    (∀ (idk : Keypair) (m : PortMap) (dh : Nat),
      (build_transport idk m dh).upgradeStages = upgradeOrder) := by
  refine ⟨?_, ?_, fun idk m dh => rfl⟩
  · intro c hc
    cases hr : resolve s with
    | error e => rw [runUpgrade] at hc; simp [hr] at hc
    | ok r =>
      cases ha : auth r with
      | error e => rw [runUpgrade] at hc; simp [hr, ha] at hc
      | ok a =>
        cases hm : mux a with
        | error e => rw [runUpgrade] at hc; simp [hr, ha, hm] at hc
        | ok c2 =>
          rw [runUpgrade] at hc
          simp [hr, ha, hm] at hc
          subst hc
          exact ⟨by rw [runUpgrade]; simp [hr, ha, hm], r, a, rfl, ha, hm⟩
  · intro e he
    cases hr : resolve s with
    | error e2 =>
        refine ⟨?_, ?_, 0, by decide, ?_⟩ <;>
          rw [runUpgrade] <;> simp [hr, livenessProbes]
    | ok r =>
      cases ha : auth r with
      | error e2 =>
          refine ⟨?_, ?_, 1, by decide, ?_⟩ <;>
            rw [runUpgrade] <;> simp [hr, ha, livenessProbes, upgradeOrder]
      | ok a =>
        cases hm : mux a with
        | error e2 =>
            refine ⟨?_, ?_, 2, by decide, ?_⟩ <;>
              rw [runUpgrade] <;> simp [hr, ha, hm, livenessProbes, upgradeOrder]
        | ok c2 =>
            rw [runUpgrade] at he
            simp [hr, ha, hm] at he

end PingPong

